import Mathlib

/-!
Shallow embedding of the presentation layer of `warnp/dongeon-of-the-dragon`
(`src/gui/graphical/window.rs`).

Modelling conventions:
* `f32` screen coordinates are modelled as exact integers (`Int`).  Every
  coordinate value this program stores or computes is integer-valued (cell
  size 32, menu origin `(0., 200.0)`, rectangle offsets 10/20/96/15), mouse
  positions are physical pixel positions, and the `f32` operations occurring
  in the guards (comparison, addition of these integers, division by the
  power of two 32 followed by `floor`, integer casts) are all exact on
  integer-valued `f32`s, so exact integer arithmetic coincides with the
  `f32` arithmetic of the source on this domain.
* Rust `as` casts from floats to machine integers truncate toward zero
  (the identity on integers) and saturate at the bounds of the target type
  (`f32ToI32`, `f32ToU16`); `i32` arithmetic on sprite cell positions wraps
  (two's complement, `wrap32`, the release-profile semantics).
* `mpsc` channels are modelled per topic: a `Receiver` is `Option (List …)`
  where `none` means the topic is absent from the registry (a `get` on it
  returns `None`, so an `unwrap` on the lookup panics) and `some q` is the
  FIFO buffer, head = oldest pending message; `try_recv` takes the head.
  A `Sender` is modelled by a `Bool` recording whether the topic is
  registered.  Payloads are modelled at the decoded level (the claims under
  study do not exercise malformed payloads).
* Panics (`unwrap` failures) are modelled by `Option`-valued operations
  returning `none`.
* The blocking spin loop of `watch_action` on the `info_response` topic is
  modelled by the extra argument `resp`: the decoded text of the response
  that eventually arrives when the buffer is currently empty (the loop
  never terminates otherwise, so a terminating run determines such a
  value); when a response is already buffered the loop takes it.
-/

namespace Dongeon

/-- Modelled from the spec: the externally owned interaction-mode enum
(`src/interact/actions.rs` is not part of the sources given); only the
`ATTACK` and `WATCH` variants are referenced by `window.rs`. -/
inductive Actions where
  | ATTACK
  | WATCH
deriving DecidableEq

/-- Modelled from the spec: sprite layer enum (`src/gui/graphical/sprite.rs`
is not part of the sources given). -/
inductive Layer where
  | BACKGROUND
  | MOVABLES
  | UI
deriving DecidableEq

/-- Modelled from the spec: `Sprite` record (`src/gui/graphical/sprite.rs` is
not part of the sources given): integer cell coordinates, layer, small
integer texture id. -/
structure Sprite where
  pos_x : Int
  pos_y : Int
  layer : Layer
  texture_id : Nat
deriving DecidableEq

/-- `const SPRITE_SIZE: i32 = 32;` (window.rs line 15). -/
def SPRITE_SIZE : Int := 32

/-- `ggez::graphics::Rect` restricted to the four fields the program uses. -/
structure Rect where
  x : Int
  y : Int
  w : Int
  h : Int
deriving DecidableEq

/-- Two's-complement wrap-around of `i32` arithmetic (Rust release profile). -/
def wrap32 (z : Int) : Int := (z + 2147483648) % 4294967296 - 2147483648

/-- Rust saturating cast `f32 as i32`, on integer-valued floats (truncation
toward zero is the identity there, only the saturation remains). -/
def f32ToI32 (z : Int) : Int := max (-2147483648) (min 2147483647 z)

/-- Rust saturating cast `f32 as u16`, on integer-valued floats. -/
def f32ToU16 (z : Int) : Nat := (max 0 (min 65535 z)).toNat

/-- `(q / SPRITE_SIZE as f32).floor() as u16`, the grid-cell encoding sent on
the `info` topic (window.rs line 158).  Division by the power of two 32 and
`floor` are exact in `f32`; on integers the composite is floor division. -/
def floorDiv32U16 (q : Int) : Nat := f32ToU16 (Int.fdiv q SPRITE_SIZE)

/-- Menu-rectangle containment test of `mouse_button_up_event`
(window.rs lines 188-189 and 195-196): strict on all four sides. -/
def rectHit (b : Rect) (x y : Int) : Bool :=
  decide (b.x < x ∧ b.x + b.w > x ∧ b.y < y ∧ b.y + b.h > y)

/-- Sprite cell containment test (window.rs lines 139-140 and 208-209): the
click coordinates are cast `as i32` (saturating) and compared strictly
against the sprite's cell bounds computed in wrapping `i32` arithmetic. -/
def spriteHit (s : Sprite) (x y : Int) : Bool :=
  decide (wrap32 (s.pos_y * SPRITE_SIZE) < f32ToI32 y ∧
    wrap32 (wrap32 (s.pos_y * SPRITE_SIZE) + SPRITE_SIZE) > f32ToI32 y ∧
    wrap32 (s.pos_x * SPRITE_SIZE) < f32ToI32 x ∧
    wrap32 (wrap32 (s.pos_x * SPRITE_SIZE) + SPRITE_SIZE) > f32ToI32 x)

/-- `ggez::event::MouseButton`, restricted to the distinction the program
makes (left versus anything else). -/
inductive MouseButton where
  | Left
  | Right
  | Middle
  | Other
deriving DecidableEq

/-- Splitting a character list on the separator character `':'`, structurally
(right fold; for a single-character separator this yields the same groups as
the left-to-right scan Rust performs). -/
def splitOnColon : List Char → List (List Char)
  | [] => [[]]
  | a :: rest =>
    match splitOnColon rest with
    | [] => [[]]
    | grp :: grps => if a = ':' then [] :: grp :: grps else (a :: grp) :: grps

/-- Rust `str::split(":")` collected into a vector of owned strings, as used
on the `select` payload (window.rs lines 243-247).  Splitting an empty
string yields the one-element list holding the empty string, exactly as in
Rust. -/
def rustSplitColon (s : String) : List String := (splitOnColon s.data).map String.mk

/-- Rust `Iterator::position`: index of the first element satisfying `p`. -/
def position (p : α → Bool) : List α → Option Nat
  | [] => none
  | a :: l => if p a then some 0 else (position p l).map (· + 1)

/-- The inbound half of the topic channel registry
(`receivers: HashMap<String, Receiver<MessageContent>>`), restricted to the
topics the program looks up.  `none` = topic not present in the registry. -/
structure Receivers where
  clear : Option (List Unit)
  stdout : Option (List String)
  select : Option (List String)
  sprite : Option (List (List Sprite))
  gameplay_state : Option (List Actions)
  info_response : Option (List String)
deriving DecidableEq

/-- The outbound half of the registry
(`senders: HashMap<String, Sender<MessageContent>>`): whether each produced
topic is registered. -/
structure Senders where
  select_response : Bool
  info : Bool
deriving DecidableEq

/-- Outbound messages, at the decoded payload level. -/
inductive OutMsg where
  | select_response (idx : Nat)
  | info (cell : Nat × Nat)
deriving DecidableEq

/-- `struct Mouse` (window.rs lines 57-61). -/
structure Mouse where
  pos_x : Int
  pos_y : Int
deriving DecidableEq

/-- `struct MainState` (window.rs lines 17-33).  Draw lists hold the texture
id and the precomputed screen destination of each sprite in place of the
`(Image, DrawParam)` pair; `sprites_textures` holds the set of registered
texture ids. -/
structure MainState where
  sprites_movables : List (Nat × Int × Int)
  sprites_background : List (Nat × Int × Int)
  sprites_ui : List (Nat × Int × Int)
  mouse : Mouse
  receivers : Receivers
  senders : Senders
  sprites_textures : List Nat
  stdout : String
  current_menu : List String
  sprites : List Sprite
  menu_to_show : List ((Int × Int) × List String)
  menu_buttons : List Rect
  selected_menu_option : Option Nat
  active_modal : Option (Int × Int × String)
  gameplay_state : Actions
deriving DecidableEq

/-- `draw_menu` (window.rs lines 100-120): draws the backdrop (texture id 0,
`unwrap` panics when unregistered) and one text line per option, pushing for
each option index `i` the rectangle
`Rect::new(x + 10., (y + i as f32 * 20.) + 10.0, 3. * 32., 15.)` onto
`menu_buttons`.  Note that it only ever pushes: nothing clears
`menu_buttons` first. -/
def draw_menu (s : MainState) (x y : Int) (options : List String) : Option MainState :=
  if 0 ∈ s.sprites_textures then
    some { s with menu_buttons := s.menu_buttons ++
      options.enum.map (fun ie =>
        { x := x + 10, y := y + (ie.1 : Int) * 20 + 10, w := 3 * 32, h := 15 }) }
  else
    none

/-- `draw_modal` (window.rs lines 122-135): draws backdrop (texture id 0,
`unwrap`) and text; mutates no presentation state. -/
def draw_modal (s : MainState) : Option MainState :=
  if 0 ∈ s.sprites_textures then some s else none

/-- `draw` (window.rs lines 285-319), restricted to its state effects: the
sprite layers, log text and pointer marker are pure canvas output; the menu
overlay is drawn at origin `(0., 200.0)` whenever `current_menu` is
non-empty (recording rectangles into `menu_buttons`), and the modal overlay
is drawn when `active_modal` is set. -/
def draw (s : MainState) : Option MainState :=
  match (if s.current_menu.length > 0 then draw_menu s 0 200 s.current_menu else some s) with
  | none => none
  | some s1 =>
    match s1.active_modal with
    | some _ => draw_modal s1
    | none => some s1

/-- `watch_action` (window.rs lines 155-177): sends the click's grid cell as
a `(u16, u16)` pair on the `info` topic (both the sender lookup and the send
`unwrap`), then spins on `try_recv` against the `info_response` topic until
a response arrives (the lookup inside the loop `unwrap`s, so an
unconfigured topic panics), and finally sets `active_modal` to the click
position and response text when the sprite set passed in is non-empty, and
to `None` otherwise.  `resp` models the awaited response when none is
buffered. -/
def watch_action (s : MainState) (x y : Int) (sprites : List Sprite) (resp : String) :
    Option (MainState × List OutMsg) :=
  if s.senders.info then
    match s.receivers.info_response with
    | none => none
    | some (t :: rest) =>
      some ({ s with
                receivers := { s.receivers with info_response := some rest },
                active_modal := if sprites.isEmpty.not then some (x, y, t) else none },
            [OutMsg.info (floorDiv32U16 x, floorDiv32U16 y)])
    | some [] =>
      some ({ s with active_modal := if sprites.isEmpty.not then some (x, y, resp) else none },
            [OutMsg.info (floorDiv32U16 x, floorDiv32U16 y)])
  else none

/-- `mouse_hovering_characterisation` (window.rs lines 137-153): recomputes
the set of sprites whose cell contains the click, then does a single
`try_recv` on the `gameplay_state` topic (the registry lookup `unwrap`s, so
an absent topic panics); if no value is pending nothing happens, otherwise
the received mode is consumed and `watch_action` runs only when it equals
`Actions::WATCH`. -/
def mouse_hovering_characterisation (s : MainState) (x y : Int) (resp : String) :
    Option (MainState × List OutMsg) :=
  match s.receivers.gameplay_state with
  | none => none
  | some [] => some (s, [])
  | some (state :: rest) =>
    if state = Actions.WATCH then
      watch_action { s with receivers := { s.receivers with gameplay_state := some rest } }
        x y (s.sprites.filter (fun sp => spriteHit sp x y)) resp
    else
      some ({ s with receivers := { s.receivers with gameplay_state := some rest } }, [])

/-- `mouse_button_up_event` (window.rs lines 181-220): non-left buttons are
ignored; otherwise the menu hit-test runs first (on a hit,
`selected_menu_option` is assigned the first matching index and one
`select_response` message is sent, the sender lookup and send `unwrap`ing),
and only when no menu rectangle matches is the sprite hit-test attempted,
invoking the hover protocol when some sprite's cell contains the click. -/
def mouse_button_up_event (s : MainState) (button : MouseButton) (x y : Int) (resp : String) :
    Option (MainState × List OutMsg) :=
  if button ≠ MouseButton.Left then some (s, [])
  else if (s.menu_buttons.filter (fun b => rectHit b x y)).length > 0 then
    match position (fun b => rectHit b x y) s.menu_buttons with
    | some menu_option =>
      if s.senders.select_response then
        some ({ s with selected_menu_option := some menu_option },
              [OutMsg.select_response menu_option])
      else none
    | none => some ({ s with selected_menu_option := none }, [])
  else if (s.sprites.filter (fun sp => spriteHit sp x y)).length > 0 then
    mouse_hovering_characterisation s x y resp
  else
    some (s, [])

/-- `update`, `clear` block (window.rs lines 225-229): an `if let Some` on
the registry lookup — an unconfigured topic is silently skipped — then one
non-blocking receive; a pending message resets the log buffer. -/
def update_clear (s : MainState) : MainState :=
  match s.receivers.clear with
  | some (_ :: rest) =>
    { s with stdout := "",
             receivers := { s.receivers with clear := some rest } }
  | _ => s

/-- `update`, `stdout` block (window.rs lines 231-238): a pending message is
appended to the log buffer preceded by a newline
(`format!` of the old buffer, a newline and the payload). -/
def update_stdout (s : MainState) : MainState :=
  match s.receivers.stdout with
  | some (text :: rest) =>
    { s with stdout := s.stdout ++ "\x0a" ++ text,
             receivers := { s.receivers with stdout := some rest } }
  | _ => s

/-- `update`, `select` block (window.rs lines 240-249): a pending message
replaces `current_menu` with the payload split on `":"`. -/
def update_select (s : MainState) : MainState :=
  match s.receivers.select with
  | some (text :: rest) =>
    { s with current_menu := rustSplitColon text,
             receivers := { s.receivers with select := some rest } }
  | _ => s

/-- `image_creation` (window.rs lines 254-257): looks the sprite's texture up
(`unwrap` panics when unregistered — modelled by `none`) and precomputes the
screen destination `(pos * SPRITE_SIZE) as f32` per axis. -/
def image_creation (textures : List Nat) (sp : Sprite) : Option (Nat × Int × Int) :=
  if sp.texture_id ∈ textures then
    some (sp.texture_id, wrap32 (sp.pos_x * SPRITE_SIZE), wrap32 (sp.pos_y * SPRITE_SIZE))
  else none

/-- `update`, `sprite` block (window.rs lines 251-278): a pending batch is
partitioned by layer into the movable and background draw lists (the UI list
is commented out in the source and never populated), each entry built by
`image_creation`, and the raw batch replaces `sprites`. -/
def update_sprite (s : MainState) : Option MainState :=
  match s.receivers.sprite with
  | some (batch :: rest) =>
    match (batch.filter (fun sp => sp.layer = Layer.MOVABLES)).mapM (image_creation s.sprites_textures) with
    | none => none
    | some movables =>
      match (batch.filter (fun sp => sp.layer = Layer.BACKGROUND)).mapM (image_creation s.sprites_textures) with
      | none => none
      | some background =>
        some { s with
                 sprites_movables := movables,
                 sprites_background := background,
                 sprites := batch,
                 receivers := { s.receivers with sprite := some rest } }
  | _ => some s

/-- `update` (window.rs lines 222-283): drains at most one message per topic
in the order clear, stdout, select, sprite, then refreshes the pointer
position from the host query (`ctx.mouse.position()`, read at the top of the
source function and applied at its end — the same value). -/
def update (s : MainState) (pointer : Int × Int) : Option MainState :=
  match update_sprite (update_select (update_stdout (update_clear s))) with
  | none => none
  | some s4 => some { s4 with mouse := { pos_x := pointer.1, pos_y := pointer.2 } }

/-- The rectangle recorded for option index `i` of a menu drawn at the only
origin `draw` ever uses, `(0., 200.0)`. -/
def menuRectAt (i : Nat) : Rect :=
  { x := 10, y := 210 + 20 * (i : Int), w := 96, h := 15 }

/-- A point lying exactly on one of the four edges of a rectangle. -/
def onEdge (b : Rect) (x y : Int) : Prop :=
  ((x = b.x ∨ x = b.x + b.w) ∧ b.y ≤ y ∧ y ≤ b.y + b.h) ∨
  ((y = b.y ∨ y = b.y + b.h) ∧ b.x ≤ x ∧ x ≤ b.x + b.w)

/-- A registry with every topic configured and all buffers empty. -/
def baseReceivers : Receivers :=
  { clear := some [], stdout := some [], select := some [], sprite := some [],
    gameplay_state := some [], info_response := some [] }

/-- A fully wired idle state used to build concrete test states, with the
texture table of `MainState::new` (window.rs lines 81-87). -/
def baseState : MainState :=
  { sprites_movables := [], sprites_background := [], sprites_ui := [],
    mouse := { pos_x := 0, pos_y := 0 },
    receivers := baseReceivers,
    senders := { select_response := true, info := true },
    sprites_textures := [0, 10, 11, 12, 200, 201],
    stdout := "", current_menu := [], sprites := [], menu_to_show := [],
    menu_buttons := [], selected_menu_option := none, active_modal := none,
    gameplay_state := Actions.ATTACK }

/-- If some element of the list satisfies `p`, `position` finds an index. -/
lemma position_eq_some_of_exists (p : α → Bool) (l : List α) (h : ∃ a ∈ l, p a = true) :
    ∃ i, position p l = some i := by
  induction l with
  | nil => rcases h with ⟨a, ha, -⟩; cases ha
  | cons a l ih =>
    by_cases hpa : p a = true
    · exact ⟨0, by simp [position, hpa]⟩
    · rcases h with ⟨b, hb, hpb⟩
      rcases List.mem_cons.mp hb with rfl | hb'
      · exact absurd hpb hpa
      · rcases ih ⟨b, hb', hpb⟩ with ⟨i, hi⟩
        exact ⟨i + 1, by simp [position, hpa, hi]⟩

/-- `position` returns the index of the first element satisfying `p`: that
element satisfies `p` and every earlier one falsifies it. -/
lemma position_spec (p : α → Bool) :
    ∀ (l : List α) (i : Nat), position p l = some i →
      ∃ a, l.get? i = some a ∧ p a = true ∧
        ∀ j b, j < i → l.get? j = some b → p b = false := by
  intro l
  induction l with
  | nil => intro i h; simp [position] at h
  | cons a l ih =>
    intro i h
    by_cases hpa : p a = true
    · simp [position, hpa] at h
      subst h
      exact ⟨a, rfl, hpa, fun j b hj _ => absurd hj (Nat.not_lt_zero j)⟩
    · simp [position, hpa] at h
      rcases h with ⟨i', hi', rfl⟩
      rcases ih i' hi' with ⟨b, hb, hpb, hfirst⟩
      refine ⟨b, by simpa using hb, hpb, ?_⟩
      intro j c hj hc
      cases j with
      | zero =>
        simp at hc
        subst hc
        exact Bool.eq_false_iff.mpr hpa
      | succ j' =>
        exact hfirst j' c (by omega) (by simpa using hc)

/-- A list whose members all falsify `p` filters to the empty list. -/
lemma filter_eq_nil_of_forall (p : α → Bool) (l : List α) (h : ∀ a ∈ l, p a = false) :
    l.filter p = [] :=
  List.filter_eq_nil_iff.mpr (fun a ha => by simp [h a ha])

/-- A list with a member satisfying `p` filters to a non-empty list. -/
lemma filter_length_pos_of_exists (p : α → Bool) (l : List α) (h : ∃ a ∈ l, p a = true) :
    0 < (l.filter p).length := by
  rcases h with ⟨a, ha, hpa⟩
  exact List.length_pos.mpr (List.ne_nil_of_mem (List.mem_filter.mpr ⟨ha, hpa⟩))

/-- Splitting never produces the empty list of groups. -/
lemma splitOnColon_ne_nil (l : List Char) : splitOnColon l ≠ [] := by
  induction l with
  | nil => simp [splitOnColon]
  | cons a rest ih =>
    rcases h : splitOnColon rest with - | ⟨grp, grps⟩
    · exact absurd h ih
    · simp only [splitOnColon, h]
      split <;> simp

/-- Rust `split` never yields an empty vector: the split of any string,
including the empty string, has at least one element. -/
lemma rustSplitColon_ne_nil (s : String) : rustSplitColon s ≠ [] := by
  unfold rustSplitColon
  simp [splitOnColon_ne_nil]

/-- A concrete state with one recorded menu rectangle. -/
def menuClickState : MainState :=
  { baseState with menu_buttons := [{ x := 10, y := 210, w := 96, h := 15 }] }

/-- C1: a primary-button release strictly inside at least one recorded menu
rectangle records the first matching index (in `menu_buttons` iteration
order) as `selected_menu_option`, emits exactly one `select_response`
message carrying that index, and ends dispatch there: no sprite hit-test
runs and every other state field (sprites, modal, receivers, …) is
unchanged. -/
theorem menu_click_emits_select_response (s : MainState) (x y : Int) (resp : String)
    (hsend : s.senders.select_response = true)
    (hhit : ∃ b ∈ s.menu_buttons, rectHit b x y = true) :
    ∃ i b, position (fun b => rectHit b x y) s.menu_buttons = some i ∧
      s.menu_buttons.get? i = some b ∧ rectHit b x y = true ∧
      (∀ j b', j < i → s.menu_buttons.get? j = some b' → rectHit b' x y = false) ∧
      mouse_button_up_event s MouseButton.Left x y resp =
        some ({ s with selected_menu_option := some i }, [OutMsg.select_response i]) := by
  rcases position_eq_some_of_exists _ _ hhit with ⟨i, hi⟩
  rcases position_spec _ _ _ hi with ⟨b, hb, hpb, hfirst⟩
  refine ⟨i, b, hi, hb, hpb, hfirst, ?_⟩
  have hlen := filter_length_pos_of_exists _ _ hhit
  simp [mouse_button_up_event, hlen, hi, hsend]

/-- Witness for C1 at a concrete state and click. -/
theorem menu_click_emits_select_response_witness :
    ∃ i b, position (fun b => rectHit b 20 215) menuClickState.menu_buttons = some i ∧
      menuClickState.menu_buttons.get? i = some b ∧ rectHit b 20 215 = true ∧
      (∀ j b', j < i → menuClickState.menu_buttons.get? j = some b' → rectHit b' 20 215 = false) ∧
      mouse_button_up_event menuClickState MouseButton.Left 20 215 "r" =
        some ({ menuClickState with selected_menu_option := some i },
              [OutMsg.select_response i]) :=
  menu_click_emits_select_response menuClickState 20 215 "r" rfl
    ⟨{ x := 10, y := 210, w := 96, h := 15 }, by decide, by decide⟩

/-- The `clear` block is skipped when the topic is unconfigured or idle. -/
lemma update_clear_skip (s : MainState)
    (h : s.receivers.clear = none ∨ s.receivers.clear = some []) : update_clear s = s := by
  unfold update_clear
  rcases h with h | h <;> rw [h]

/-- The `stdout` block is skipped when the topic is unconfigured or idle. -/
lemma update_stdout_skip (s : MainState)
    (h : s.receivers.stdout = none ∨ s.receivers.stdout = some []) : update_stdout s = s := by
  unfold update_stdout
  rcases h with h | h <;> rw [h]

/-- The `select` block is skipped when the topic is unconfigured or idle. -/
lemma update_select_skip (s : MainState)
    (h : s.receivers.select = none ∨ s.receivers.select = some []) : update_select s = s := by
  unfold update_select
  rcases h with h | h <;> rw [h]

/-- The `sprite` block is skipped when the topic is unconfigured or idle. -/
lemma update_sprite_skip (s : MainState)
    (h : s.receivers.sprite = none ∨ s.receivers.sprite = some []) :
    update_sprite s = some s := by
  unfold update_sprite
  rcases h with h | h <;> rw [h]

/-- A stale rectangle supposedly left over from an earlier frame's draw. -/
def staleRect : Rect := { x := 1, y := 2, w := 3, h := 4 }

/-- A state holding one stale recorded rectangle and a two-option menu. -/
def staleMenuState : MainState :=
  { baseState with menu_buttons := [staleRect], current_menu := ["Attack", "Flee"] }

/-- C2 counterexample: drawing the menu `["Attack","Flee"]` at origin
`(0,200)` over a state still holding a rectangle from an earlier draw yields
three recorded rectangles with the stale one retained in front — not
exactly two with all previously recorded rectangles discarded. -/
theorem draw_retains_stale_menu_buttons_cex :
    (draw staleMenuState).map MainState.menu_buttons =
      some [staleRect, { x := 10, y := 210, w := 96, h := 15 },
            { x := 10, y := 230, w := 96, h := 15 }] ∧
    (draw staleMenuState).map (fun s => s.menu_buttons.length) = some 3 ∧
    ¬ (draw staleMenuState).map (fun s => s.menu_buttons.length) = some 2 := by
  decide

/-- C2 (amended): each draw of a menu appends one rectangle per option, in
option order, to `menu_buttons`, retaining (not discarding) every
rectangle recorded by previous draws: drawing `["Attack","Flee"]` at origin
`(0,200)` appends exactly the two rectangles of those options, in that
order, after whatever was recorded before. -/
theorem draw_menu_appends_button_rects (s : MainState)
    (htex : 0 ∈ s.sprites_textures) (hmenu : s.current_menu = ["Attack", "Flee"]) :
    (∃ s', draw s = some s' ∧
      s'.menu_buttons = s.menu_buttons ++
        [{ x := 10, y := 210, w := 96, h := 15 }, { x := 10, y := 230, w := 96, h := 15 }]) ∧
    (∀ (s₂ s₂' : MainState) (x y : Int) (opts : List String),
      draw_menu s₂ x y opts = some s₂' →
        s₂'.menu_buttons = s₂.menu_buttons ++ opts.enum.map (fun ie =>
          { x := x + 10, y := y + (ie.1 : Int) * 20 + 10, w := 3 * 32, h := 15 })) := by
  constructor
  · have hdm : draw_menu s 0 200 ["Attack", "Flee"] =
        some { s with menu_buttons := s.menu_buttons ++
          [{ x := 10, y := 210, w := 96, h := 15 },
           { x := 10, y := 230, w := 96, h := 15 }] } := by
      simp only [draw_menu, if_pos htex]
      norm_num [List.enum]
    have htail : draw s = some { s with menu_buttons := s.menu_buttons ++
        [{ x := 10, y := 210, w := 96, h := 15 },
         { x := 10, y := 230, w := 96, h := 15 }] } := by
      unfold draw
      rw [hmenu, if_pos (by norm_num), hdm]
      rcases hmod : s.active_modal with - | v
      · simp [hmod, hmenu]
      · simp [hmod, hmenu, draw_modal, htex]
    exact ⟨_, htail, rfl⟩
  · intro s₂ s₂' x y opts h
    unfold draw_menu at h
    split at h
    · cases h; rfl
    · cases h

/-- Witness for C2's amended statement at a concrete state. -/
theorem draw_menu_appends_button_rects_witness :
    (∃ s', draw staleMenuState = some s' ∧
      s'.menu_buttons = staleMenuState.menu_buttons ++
        [{ x := 10, y := 210, w := 96, h := 15 }, { x := 10, y := 230, w := 96, h := 15 }]) ∧
    (∀ (s₂ s₂' : MainState) (x y : Int) (opts : List String),
      draw_menu s₂ x y opts = some s₂' →
        s₂'.menu_buttons = s₂.menu_buttons ++ opts.enum.map (fun ie =>
          { x := x + 10, y := y + (ie.1 : Int) * 20 + 10, w := 3 * 32, h := 15 })) :=
  draw_menu_appends_button_rects staleMenuState (by decide) rfl

/-- A state with an empty-payload `select` message pending. -/
def emptySelectState : MainState :=
  { baseState with receivers := { baseReceivers with select := some [""] } }

/-- C3 counterexample: after receiving a `select` message with empty
payload, `current_menu` equals `[""]` — one empty label, not the empty
menu — so the next draw shows a menu overlay and records one clickable
rectangle. -/
theorem select_empty_payload_shows_menu_cex :
    (update emptySelectState (0, 0)).bind
        (fun s => (draw s).map (fun s' => (s.current_menu, s'.menu_buttons.length))) =
      some ([""], 1) := by
  decide

/-- C3 (amended): a `select` message replaces `current_menu` with the
payload split on `":"`; the split result is never the empty list — an empty
payload splits to the single empty label — so after any `select` message
the menu is non-empty (hence shown, with clickable rectangles recorded by
the next draw); no `select` message can clear the menu. -/
theorem select_replaces_current_menu (s : MainState) (payload : String)
    (rest : List String) (p : Int × Int)
    (hc : s.receivers.clear = some []) (hout : s.receivers.stdout = some [])
    (hsp : s.receivers.sprite = some [])
    (hsel : s.receivers.select = some (payload :: rest)) :
    ∃ s', update s p = some s' ∧ s'.current_menu = rustSplitColon payload ∧
      s'.current_menu ≠ [] ∧ (payload = "" → s'.current_menu = [""]) := by
  have h1 : update_clear s = s := update_clear_skip s (Or.inr hc)
  have h2 : update_stdout s = s := update_stdout_skip s (Or.inr hout)
  have h3 : update_select s =
      { s with current_menu := rustSplitColon payload,
               receivers := { s.receivers with select := some rest } } := by
    unfold update_select
    rw [hsel]
  have h4 : update_sprite (update_select s) = some (update_select s) :=
    update_sprite_skip _ (Or.inr (by rw [h3]; exact hsp))
  refine ⟨{ update_select s with mouse := { pos_x := p.1, pos_y := p.2 } }, ?_, ?_, ?_, ?_⟩
  · unfold update
    rw [h1, h2, h4]
  · rw [h3]
  · rw [h3]
    exact rustSplitColon_ne_nil payload
  · rintro rfl
    rw [h3]
    exact (by decide : rustSplitColon "" = [""])

/-- Witness for C3's amended statement at a concrete state. -/
theorem select_replaces_current_menu_witness :
    ∃ s', update emptySelectState (0, 0) = some s' ∧
      s'.current_menu = rustSplitColon "" ∧
      s'.current_menu ≠ [] ∧ ("" = "" → s'.current_menu = [""]) :=
  select_replaces_current_menu emptySelectState "" [] (0, 0) rfl rfl rfl rfl

/-- A state with two modes buffered on `gameplay_state` (latest = `WATCH`)
and a sprite at cell `(0,0)`. -/
def twoModesState : MainState :=
  { baseState with
      receivers := { baseReceivers with
        gameplay_state := some [Actions.ATTACK, Actions.WATCH] },
      sprites := [{ pos_x := 0, pos_y := 0, layer := Layer.MOVABLES, texture_id := 200 }] }

/-- C4 counterexample: with `[ATTACK, WATCH]` buffered (latest value =
`WATCH`) and a sprite under the click, the hover protocol's single
`try_recv` consumes the oldest value `ATTACK` and does nothing — no
outbound message, no presentation change, `WATCH` left pending — whereas a
read yielding the latest buffered value would have taken the watch branch
and emitted an `info` request. -/
theorem hover_reads_oldest_not_latest_cex :
    twoModesState.receivers.gameplay_state = some [Actions.ATTACK, Actions.WATCH] ∧
    mouse_hovering_characterisation twoModesState 16 16 "Goblin" =
      some ({ twoModesState with
                receivers := { twoModesState.receivers with
                  gameplay_state := some [Actions.WATCH] } },
            []) := by
  decide

/-- C4 (amended): invoked by a sprite click, the hover query protocol
performs one non-blocking read returning the oldest buffered value (the
queue head) of the `gameplay_state` topic — not the latest; if no value is
pending it does nothing at all (no outbound message, no presentation-state
change), and a pending non-watch head is merely consumed. -/
theorem hover_query_reads_queue_head (s : MainState) (x y : Int) (r : String) :
    (s.receivers.gameplay_state = some [] →
      mouse_hovering_characterisation s x y r = some (s, [])) ∧
    (∀ a rest, s.receivers.gameplay_state = some (a :: rest) → a ≠ Actions.WATCH →
      mouse_hovering_characterisation s x y r =
        some ({ s with receivers := { s.receivers with gameplay_state := some rest } },
              [])) := by
  constructor
  · intro h
    unfold mouse_hovering_characterisation
    rw [h]
  · intro a rest h ha
    unfold mouse_hovering_characterisation
    rw [h]
    simp [ha]

/-- Witness for C4's amended statement: an idle queue is a no-op; the head
`ATTACK` of `[ATTACK, WATCH]` is consumed without any message. -/
theorem hover_query_reads_queue_head_witness :
    (mouse_hovering_characterisation baseState 16 16 "g" = some (baseState, [])) ∧
    (mouse_hovering_characterisation twoModesState 16 16 "g" =
      some ({ twoModesState with
                receivers := { twoModesState.receivers with
                  gameplay_state := some [Actions.WATCH] } },
            [])) :=
  ⟨(hover_query_reads_queue_head baseState 16 16 "g").1 rfl,
   (hover_query_reads_queue_head twoModesState 16 16 "g").2 Actions.ATTACK [Actions.WATCH]
      rfl (by decide)⟩

/-- Evaluation of a full watch-mode dispatch: no menu rectangle matches,
some sprite's cell contains the click, the pending mode is `WATCH`, the
`info` sender and `info_response` topic are wired with no response yet
buffered.  The dispatcher pops the mode, emits exactly one `info` request
carrying the floor-divided cell pair, and sets the modal to the click
position with the awaited response text. -/
lemma dispatch_watch_eq (s : MainState) (x y : Int) (resp : String) (rest : List Actions)
    (hmenu : ∀ b ∈ s.menu_buttons, rectHit b x y = false)
    (hsprite : ∃ sp ∈ s.sprites, spriteHit sp x y = true)
    (hmode : s.receivers.gameplay_state = some (Actions.WATCH :: rest))
    (hinfo : s.senders.info = true)
    (hresp : s.receivers.info_response = some []) :
    mouse_button_up_event s MouseButton.Left x y resp =
      some ({ s with
                receivers := { s.receivers with gameplay_state := some rest },
                active_modal := some (x, y, resp) },
            [OutMsg.info (floorDiv32U16 x, floorDiv32U16 y)]) := by
  have hfil : s.menu_buttons.filter (fun b => rectHit b x y) = [] :=
    filter_eq_nil_of_forall _ _ hmenu
  have hlen : 0 < (s.sprites.filter (fun sp => spriteHit sp x y)).length :=
    filter_length_pos_of_exists _ _ hsprite
  have hne : (s.sprites.filter (fun sp => spriteHit sp x y)).isEmpty.not = true := by
    rcases h : s.sprites.filter (fun sp => spriteHit sp x y) with - | ⟨a, l⟩
    · rw [h] at hlen
      simp at hlen
    · rfl
  unfold mouse_button_up_event mouse_hovering_characterisation watch_action
  rw [hfil]
  simp [hlen, hmode, hinfo, hresp, hne]

/-- A state with mode `WATCH` pending and a sprite at cell `(0,0)`. -/
def watchClickState : MainState :=
  { baseState with
      receivers := { baseReceivers with gameplay_state := some [Actions.WATCH] },
      sprites := [{ pos_x := 0, pos_y := 0, layer := Layer.MOVABLES, texture_id := 200 }] }

/-- C5: a primary-button click matching no menu rectangle, landing inside at
least one sprite's grid cell, with the drained interaction mode being the
watch variant, makes the dispatcher emit exactly one `info` request whose
payload is the pair `(floor(x / 32), floor(y / 32))` encoded as
`(u16, u16)`. -/
theorem watch_click_emits_info_request (s : MainState) (x y : Int) (resp : String)
    (rest : List Actions)
    (hmenu : ∀ b ∈ s.menu_buttons, rectHit b x y = false)
    (hsprite : ∃ sp ∈ s.sprites, spriteHit sp x y = true)
    (hmode : s.receivers.gameplay_state = some (Actions.WATCH :: rest))
    (hinfo : s.senders.info = true)
    (hresp : s.receivers.info_response = some []) :
    ∃ s', mouse_button_up_event s MouseButton.Left x y resp =
      some (s', [OutMsg.info (floorDiv32U16 x, floorDiv32U16 y)]) :=
  ⟨_, dispatch_watch_eq s x y resp rest hmenu hsprite hmode hinfo hresp⟩

/-- Witness for C5 at a concrete state and click. -/
theorem watch_click_emits_info_request_witness :
    ∃ s', mouse_button_up_event watchClickState MouseButton.Left 16 16 "Goblin" =
      some (s', [OutMsg.info (floorDiv32U16 16, floorDiv32U16 16)]) :=
  watch_click_emits_info_request watchClickState 16 16 "Goblin" []
    (by simp [watchClickState, baseState])
    ⟨{ pos_x := 0, pos_y := 0, layer := Layer.MOVABLES, texture_id := 200 }, by decide, by decide⟩
    rfl rfl rfl

/-- C6: after a watch-mode click at `(x, y)` on a sprite, once the
`info_response` text `t` arrives the modal state equals `Some (x, y, t)`
with `x, y` the original click coordinates; the originating sprite set
being non-empty, this step always sets the modal and never clears it. -/
theorem info_response_sets_modal (s : MainState) (x y : Int) (t : String)
    (rest : List Actions)
    (hmenu : ∀ b ∈ s.menu_buttons, rectHit b x y = false)
    (hsprite : ∃ sp ∈ s.sprites, spriteHit sp x y = true)
    (hmode : s.receivers.gameplay_state = some (Actions.WATCH :: rest))
    (hinfo : s.senders.info = true)
    (hresp : s.receivers.info_response = some []) :
    ∃ s' msgs, mouse_button_up_event s MouseButton.Left x y t = some (s', msgs) ∧
      s'.active_modal = some (x, y, t) :=
  ⟨_, _, dispatch_watch_eq s x y t rest hmenu hsprite hmode hinfo hresp, rfl⟩

/-- Witness for C6 at a concrete state, click and response text. -/
theorem info_response_sets_modal_witness :
    ∃ s' msgs, mouse_button_up_event watchClickState MouseButton.Left 16 16 "Goblin" =
      some (s', msgs) ∧ s'.active_modal = some (16, 16, "Goblin") :=
  info_response_sets_modal watchClickState 16 16 "Goblin" []
    (by simp [watchClickState, baseState])
    ⟨{ pos_x := 0, pos_y := 0, layer := Layer.MOVABLES, texture_id := 200 }, by decide, by decide⟩
    rfl rfl rfl

/-- A state whose registry lacks the `clear` topic. -/
def noClearTopicState : MainState :=
  { baseState with receivers := { baseReceivers with clear := none } }

/-- C7 counterexample: with the `clear` topic absent from the registry, the
frame update pipeline looks it up, finds nothing, silently skips it and
completes normally — the lookup of an unconfigured topic is not fatal
there. -/
theorem update_skips_unconfigured_topic_cex :
    noClearTopicState.receivers.clear = none ∧
    update noClearTopicState (0, 0) = some noClearTopicState := by
  decide

/-- A state lacking the `gameplay_state` topic, with a sprite at cell
`(9,9)`. -/
def noModeTopicState : MainState :=
  { baseState with
      receivers := { baseReceivers with gameplay_state := none },
      sprites := [{ pos_x := 9, pos_y := 9, layer := Layer.MOVABLES, texture_id := 200 }] }

/-- A state lacking the `select_response` sender, with one recorded menu
rectangle. -/
def noSelectSenderState : MainState :=
  { baseState with
      senders := { select_response := false, info := true },
      menu_buttons := [{ x := 10, y := 210, w := 96, h := 15 }] }

/-- A state lacking the `info` sender. -/
def noInfoSenderState : MainState :=
  { baseState with senders := { select_response := true, info := false } }

/-- A state lacking the `info_response` topic. -/
def noInfoResponseTopicState : MainState :=
  { baseState with receivers := { baseReceivers with info_response := none } }

/-- A state whose registry lacks all four update-pipeline inbound topics. -/
def noUpdateTopicsState : MainState :=
  { baseState with
      receivers := { baseReceivers with
        clear := none, stdout := none, select := none, sprite := none } }

/-- C7 (amended): topic lookups in the input dispatcher and the hover query
protocol are fatal when the topic is unconfigured — `gameplay_state` on a
sprite click, `select_response` on a menu hit, `info` and `info_response`
inside `watch_action` — but the frame update drain is not: its four
inbound-topic lookups (`clear`, `stdout`, `select`, `sprite`) silently skip
unconfigured topics and the frame continues, leaving every field except the
pointer unchanged. -/
theorem topic_lookup_fatality (s : MainState) (x y : Int) (r : String) (p : Int × Int) :
    (s.receivers.gameplay_state = none →
      (∃ sp ∈ s.sprites, spriteHit sp x y = true) →
      (∀ b ∈ s.menu_buttons, rectHit b x y = false) →
      mouse_button_up_event s MouseButton.Left x y r = none) ∧
    (s.senders.select_response = false →
      (∃ b ∈ s.menu_buttons, rectHit b x y = true) →
      mouse_button_up_event s MouseButton.Left x y r = none) ∧
    (∀ sprites, s.senders.info = false → watch_action s x y sprites r = none) ∧
    (∀ sprites, s.senders.info = true → s.receivers.info_response = none →
      watch_action s x y sprites r = none) ∧
    (s.receivers.clear = none → s.receivers.stdout = none → s.receivers.select = none →
      s.receivers.sprite = none →
      update s p = some { s with mouse := { pos_x := p.1, pos_y := p.2 } }) := by
  refine ⟨?_, ?_, ?_, ?_, ?_⟩
  · intro hgs hsp hmenu
    have hfil : s.menu_buttons.filter (fun b => rectHit b x y) = [] :=
      filter_eq_nil_of_forall _ _ hmenu
    have hlen : 0 < (s.sprites.filter (fun sp => spriteHit sp x y)).length :=
      filter_length_pos_of_exists _ _ hsp
    unfold mouse_button_up_event mouse_hovering_characterisation
    rw [hfil]
    simp [hlen, hgs]
  · intro hsend hhit
    rcases position_eq_some_of_exists _ _ hhit with ⟨i, hi⟩
    have hlen := filter_length_pos_of_exists _ _ hhit
    unfold mouse_button_up_event
    simp [hlen, hi, hsend]
  · intro sprites hinfo
    unfold watch_action
    rw [hinfo]
    rfl
  · intro sprites hinfo hresp
    unfold watch_action
    rw [hinfo, hresp]
    rfl
  · intro hc hout hsel hsp
    have h1 : update_clear s = s := update_clear_skip s (Or.inl hc)
    have h2 : update_stdout s = s := update_stdout_skip s (Or.inl hout)
    have h3 : update_select s = s := update_select_skip s (Or.inl hsel)
    have h4 : update_sprite s = some s := update_sprite_skip s (Or.inl hsp)
    unfold update
    rw [h1, h2, h3, h4]

/-- Witness for C7's amended statement at concrete states: the four fatal
lookup sites return `none` (panic) and the update drain succeeds with only
the pointer refreshed. -/
theorem topic_lookup_fatality_witness :
    mouse_button_up_event noModeTopicState MouseButton.Left 300 300 "g" = none ∧
    mouse_button_up_event noSelectSenderState MouseButton.Left 20 215 "g" = none ∧
    watch_action noInfoSenderState 16 16 [] "g" = none ∧
    watch_action noInfoResponseTopicState 16 16 [] "g" = none ∧
    update noUpdateTopicsState (3, 4) =
      some { noUpdateTopicsState with mouse := { pos_x := 3, pos_y := 4 } } :=
  ⟨(topic_lookup_fatality noModeTopicState 300 300 "g" (0, 0)).1 rfl
      ⟨{ pos_x := 9, pos_y := 9, layer := Layer.MOVABLES, texture_id := 200 },
        by decide, by decide⟩
      (by simp [noModeTopicState, baseState]),
   (topic_lookup_fatality noSelectSenderState 20 215 "g" (0, 0)).2.1 rfl
      ⟨{ x := 10, y := 210, w := 96, h := 15 }, by decide, by decide⟩,
   (topic_lookup_fatality noInfoSenderState 16 16 "g" (0, 0)).2.2.1 [] rfl,
   (topic_lookup_fatality noInfoResponseTopicState 16 16 "g" (0, 0)).2.2.2.1 [] rfl rfl,
   (topic_lookup_fatality noUpdateTopicsState 0 0 "g" (3, 4)).2.2.2.2 rfl rfl rfl rfl⟩

/-- C8: a pointer-release of a non-primary button, and a primary-button
click inside no menu rectangle and no sprite cell, each produce no outbound
message and leave the entire presentation state (menu, menu buttons,
selected option, modal, log, sprites, pointer, …) unchanged. -/
theorem missed_clicks_are_noops (s : MainState) (b : MouseButton) (x y : Int) (r : String) :
    (b ≠ MouseButton.Left → mouse_button_up_event s b x y r = some (s, [])) ∧
    ((∀ bt ∈ s.menu_buttons, rectHit bt x y = false) →
      (∀ sp ∈ s.sprites, spriteHit sp x y = false) →
      mouse_button_up_event s MouseButton.Left x y r = some (s, [])) := by
  constructor
  · intro hb
    unfold mouse_button_up_event
    rw [if_pos hb]
  · intro hmenu hsprite
    have hfil : s.menu_buttons.filter (fun bt => rectHit bt x y) = [] :=
      filter_eq_nil_of_forall _ _ hmenu
    have hfil2 : s.sprites.filter (fun sp => spriteHit sp x y) = [] :=
      filter_eq_nil_of_forall _ _ hsprite
    unfold mouse_button_up_event
    rw [hfil, hfil2]
    simp

/-- Witness for C8: a right-button release, and a left click at `(500, 500)`
over a state with one menu rectangle and one sprite neither of which
contains it, are both complete no-ops. -/
theorem missed_clicks_are_noops_witness :
    (mouse_button_up_event menuClickState MouseButton.Right 20 215 "g" =
      some (menuClickState, [])) ∧
    (mouse_button_up_event watchClickState MouseButton.Left 500 500 "g" =
      some (watchClickState, [])) :=
  ⟨(missed_clicks_are_noops menuClickState MouseButton.Right 20 215 "g").1 (by decide),
   (missed_clicks_are_noops watchClickState MouseButton.Left 500 500 "g").2
      (by simp [watchClickState, baseState]) (by decide)⟩

/-- The `clear` block never touches the modal. -/
lemma update_clear_modal (s : MainState) : (update_clear s).active_modal = s.active_modal := by
  unfold update_clear
  split <;> rfl

/-- The `stdout` block never touches the modal. -/
lemma update_stdout_modal (s : MainState) : (update_stdout s).active_modal = s.active_modal := by
  unfold update_stdout
  split <;> rfl

/-- The `select` block never touches the modal. -/
lemma update_select_modal (s : MainState) : (update_select s).active_modal = s.active_modal := by
  unfold update_select
  split <;> rfl

/-- The `sprite` block never touches the modal. -/
lemma update_sprite_modal (s s' : MainState) (h : update_sprite s = some s') :
    s'.active_modal = s.active_modal := by
  unfold update_sprite at h
  split at h
  · split at h
    · simp at h
    · split at h
      · simp at h
      · cases h
        rfl
  · cases h
    rfl

/-- The frame update pipeline never touches the modal. -/
lemma update_modal (s : MainState) (p : Int × Int) (s' : MainState)
    (h : update s p = some s') : s'.active_modal = s.active_modal := by
  unfold update at h
  split at h
  · simp at h
  · rename_i s4 heq
    cases h
    calc ({ s4 with mouse := { pos_x := p.1, pos_y := p.2 } } : MainState).active_modal
        = s4.active_modal := rfl
      _ = (update_select (update_stdout (update_clear s))).active_modal :=
          update_sprite_modal _ _ heq
      _ = s.active_modal := by
          rw [update_select_modal, update_stdout_modal, update_clear_modal]

/-- `draw_menu` never touches the modal. -/
lemma draw_menu_modal (s : MainState) (x y : Int) (opts : List String) (s' : MainState)
    (h : draw_menu s x y opts = some s') : s'.active_modal = s.active_modal := by
  unfold draw_menu at h
  split at h
  · cases h
    rfl
  · cases h

/-- The render pipeline never touches the modal. -/
lemma draw_modal_pres (s s' : MainState) (h : draw s = some s') :
    s'.active_modal = s.active_modal := by
  unfold draw at h
  split at h
  · simp at h
  · rename_i s1 heq
    have h1 : s1.active_modal = s.active_modal := by
      by_cases hc : s.current_menu.length > 0
      · rw [if_pos hc] at heq
        exact draw_menu_modal s 0 200 s.current_menu s1 heq
      · rw [if_neg hc] at heq
        cases heq
        rfl
    split at h
    · unfold draw_modal at h
      split at h
      · cases h
        exact h1
      · cases h
    · cases h
      exact h1

/-- `watch_action` invoked with a non-empty sprite set always sets the
modal (to the click position and response text), never clears it. -/
lemma watch_action_modal (s : MainState) (x y : Int) (sprites : List Sprite) (r : String)
    (s' : MainState) (msgs : List OutMsg) (hne : sprites ≠ [])
    (h : watch_action s x y sprites r = some (s', msgs)) :
    ∃ v, s'.active_modal = some v := by
  have hb : sprites.isEmpty.not = true := by
    rcases sprites with - | ⟨a, l⟩
    · exact absurd rfl hne
    · rfl
  unfold watch_action at h
  rw [hb] at h
  cases hif : s.senders.info
  · rw [hif] at h
    simp at h
  · rw [hif] at h
    rcases hresp : s.receivers.info_response with - | q
    · rw [hresp] at h
      simp at h
    · rw [hresp] at h
      rcases q with - | ⟨t, rest⟩
      · replace h :
            some (({ s with active_modal := if true then some (x, y, r) else none } : MainState),
              [OutMsg.info (floorDiv32U16 x, floorDiv32U16 y)]) = some (s', msgs) := h
        cases h
        exact ⟨(x, y, r), rfl⟩
      · replace h :
            some (({ s with
                      receivers := { s.receivers with info_response := some rest },
                      active_modal := if true then some (x, y, t) else none } : MainState),
              [OutMsg.info (floorDiv32U16 x, floorDiv32U16 y)]) = some (s', msgs) := h
        cases h
        exact ⟨(x, y, t), rfl⟩

/-- The hover protocol, invoked when some sprite's cell contains the click,
either leaves the modal unchanged or sets it to a value. -/
lemma hover_modal (s : MainState) (x y : Int) (r : String) (s' : MainState)
    (msgs : List OutMsg)
    (hlen : 0 < (s.sprites.filter (fun sp => spriteHit sp x y)).length)
    (h : mouse_hovering_characterisation s x y r = some (s', msgs)) :
    s'.active_modal = s.active_modal ∨ ∃ v, s'.active_modal = some v := by
  have hne : s.sprites.filter (fun sp => spriteHit sp x y) ≠ [] := by
    intro hnil
    rw [hnil] at hlen
    simp at hlen
  unfold mouse_hovering_characterisation at h
  rcases hgs : s.receivers.gameplay_state with - | q
  · rw [hgs] at h
    simp at h
  · rw [hgs] at h
    rcases q with - | ⟨st, rest⟩
    · replace h : some (s, ([] : List OutMsg)) = some (s', msgs) := h
      cases h
      exact Or.inl rfl
    · by_cases hst : st = Actions.WATCH
      · replace h : watch_action
            { s with receivers := { s.receivers with gameplay_state := some rest } }
            x y (s.sprites.filter (fun sp => spriteHit sp x y)) r = some (s', msgs) := by
          rw [← h]
          simp [hst]
        rcases watch_action_modal _ x y _ r s' msgs hne h with ⟨v, hv⟩
        exact Or.inr ⟨v, hv⟩
      · replace h :
            some (({ s with
                      receivers := { s.receivers with gameplay_state := some rest } } :
                    MainState), ([] : List OutMsg)) = some (s', msgs) := by
          rw [← h]
          simp [hst]
        cases h
        exact Or.inl rfl

/-- The input dispatcher either leaves the modal unchanged or sets it to a
value — the `None` assignment in `watch_action` is unreachable from
dispatch, whose guard established the same sprite filter non-empty. -/
lemma dispatch_modal (s : MainState) (bt : MouseButton) (x y : Int) (r : String)
    (s' : MainState) (msgs : List OutMsg)
    (h : mouse_button_up_event s bt x y r = some (s', msgs)) :
    s'.active_modal = s.active_modal ∨ ∃ v, s'.active_modal = some v := by
  unfold mouse_button_up_event at h
  by_cases hbt : bt ≠ MouseButton.Left
  · rw [if_pos hbt] at h
    cases h
    exact Or.inl rfl
  · rw [if_neg hbt] at h
    by_cases hm : (s.menu_buttons.filter (fun b => rectHit b x y)).length > 0
    · rw [if_pos hm] at h
      rcases hpos : position (fun b => rectHit b x y) s.menu_buttons with - | i
      · rw [hpos] at h
        replace h : some (({ s with selected_menu_option := none } : MainState),
            ([] : List OutMsg)) = some (s', msgs) := h
        cases h
        exact Or.inl rfl
      · rw [hpos] at h
        cases hsend : s.senders.select_response
        · rw [hsend] at h
          simp at h
        · rw [hsend] at h
          replace h : some (({ s with selected_menu_option := some i } : MainState),
              [OutMsg.select_response i]) = some (s', msgs) := h
          cases h
          exact Or.inl rfl
    · rw [if_neg hm] at h
      by_cases hs : (s.sprites.filter (fun sp => spriteHit sp x y)).length > 0
      · rw [if_pos hs] at h
        exact hover_modal s x y r s' msgs hs h
      · rw [if_neg hs] at h
        cases h
        exact Or.inl rfl

/-- C9: once `active_modal` is `Some`, no operation resets it to `None`:
the frame update and the draw leave it exactly as it was, and the
dispatcher leaves it unchanged or replaces it with a new `Some` (the
clearing branch of `watch_action` is unreachable from dispatch because the
dispatcher invokes the protocol only after the identical hit-test over
unchanged state found a non-empty sprite set); a displayed modal persists
until replaced by a later watch query's result. -/
theorem active_modal_never_cleared (s : MainState) (m : Int × Int × String)
    (bt : MouseButton) (x y : Int) (r : String) (p : Int × Int)
    (hm : s.active_modal = some m) :
    (∀ s', update s p = some s' → s'.active_modal = some m) ∧
    (∀ s' msgs, mouse_button_up_event s bt x y r = some (s', msgs) →
      s'.active_modal ≠ none) ∧
    (∀ s', draw s = some s' → s'.active_modal = some m) := by
  refine ⟨?_, ?_, ?_⟩
  · intro s' h
    rw [update_modal s p s' h, hm]
  · intro s' msgs h
    rcases dispatch_modal s bt x y r s' msgs h with heq | ⟨v, hv⟩
    · rw [heq, hm]
      simp
    · rw [hv]
      simp
  · intro s' h
    rw [draw_modal_pres s s' h, hm]

/-- A state showing a modal, with a watch click pending. -/
def modalShownState : MainState :=
  { watchClickState with active_modal := some (1, 2, "Orc") }

/-- Witness for C9: with a modal `(1,2,"Orc")` shown, an idle update keeps
it, a watch-mode dispatch leaves the modal non-`None` (here: replaced by
the new query's result), and a draw keeps it. -/
theorem active_modal_never_cleared_witness :
    (∀ s', update modalShownState (5, 6) = some s' → s'.active_modal = some (1, 2, "Orc")) ∧
    (∀ s' msgs, mouse_button_up_event modalShownState MouseButton.Left 16 16 "Goblin" =
      some (s', msgs) → s'.active_modal ≠ none) ∧
    (∀ s', draw modalShownState = some s' → s'.active_modal = some (1, 2, "Orc")) :=
  active_modal_never_cleared modalShownState (1, 2, "Orc") MouseButton.Left 16 16 "Goblin"
    (5, 6) rfl

/-- A click whose x pixel coordinate is an exact multiple of the cell size
falls strictly inside no sprite cell: the cell bounds are multiples of 32
(in wrapping `i32` arithmetic) and the test is strict on both sides, and
the saturated cast of an out-of-range multiple is either `i32` min (itself
a multiple of 32) or `i32` max (above every representable cell bound). -/
lemma spriteHit_false_of_x_mult (sp : Sprite) (x y : Int) (hx : x % 32 = 0) :
    spriteHit sp x y = false := by
  simp only [spriteHit, SPRITE_SIZE, f32ToI32, wrap32, decide_eq_false_iff_not]
  omega

/-- Same as `spriteHit_false_of_x_mult` on the y axis. -/
lemma spriteHit_false_of_y_mult (sp : Sprite) (x y : Int) (hy : y % 32 = 0) :
    spriteHit sp x y = false := by
  simp only [spriteHit, SPRITE_SIZE, f32ToI32, wrap32, decide_eq_false_iff_not]
  omega

/-- A click on an edge of one recorded menu rectangle hits no recorded menu
rectangle: all rectangles recorded at origin `(0,200)` share their x span,
and their y spans are 15 high on a 20-pixel pitch, so an edge ordinate of
one rectangle lies strictly inside none. -/
lemma rectHit_menu_edge_false (i j : Nat) (x y : Int)
    (hedge : onEdge (menuRectAt i) x y) : rectHit (menuRectAt j) x y = false := by
  simp only [menuRectAt, onEdge, rectHit, decide_eq_false_iff_not] at *
  omega

/-- C10: both hit-tests use strictly open containment on all four sides: a
click whose pixel coordinate is an exact multiple of the 32-pixel cell size
on either axis matches no sprite's grid cell; a click lying exactly on any
edge of a recorded menu rectangle (the rectangles `draw` records all having
the origin-`(0,200)` shape) matches no recorded menu rectangle, so such
boundary clicks resolve as if they hit nothing; and drawing preserves the
recorded-rectangle shape. -/
theorem boundary_clicks_hit_nothing (sp : Sprite) (x y : Int) (rects : List Rect) (b : Rect) :
    (x % 32 = 0 → spriteHit sp x y = false) ∧
    (y % 32 = 0 → spriteHit sp x y = false) ∧
    ((∀ r ∈ rects, ∃ i : Nat, r = menuRectAt i) → b ∈ rects → onEdge b x y →
      ∀ r ∈ rects, rectHit r x y = false) ∧
    (∀ s s' : MainState, (∀ r ∈ s.menu_buttons, ∃ i : Nat, r = menuRectAt i) →
      draw s = some s' → ∀ r ∈ s'.menu_buttons, ∃ i : Nat, r = menuRectAt i) := by
  refine ⟨fun hx => spriteHit_false_of_x_mult sp x y hx,
          fun hy => spriteHit_false_of_y_mult sp x y hy, ?_, ?_⟩
  · intro hshape hb hedge r hr
    obtain ⟨i, rfl⟩ := hshape b hb
    obtain ⟨j, rfl⟩ := hshape r hr
    exact rectHit_menu_edge_false i j x y hedge
  · intro s s' hinv hdraw r hr
    unfold draw at hdraw
    split at hdraw
    · simp at hdraw
    · rename_i s1 heq
      have hmb : ∀ r ∈ s1.menu_buttons, ∃ i : Nat, r = menuRectAt i := by
        by_cases hc : s.current_menu.length > 0
        · rw [if_pos hc] at heq
          unfold draw_menu at heq
          split at heq
          · cases heq
            intro r hrm
            rcases List.mem_append.mp hrm with hL | hR
            · exact hinv r hL
            · rcases List.mem_map.mp hR with ⟨ie, -, rfl⟩
              refine ⟨ie.1, ?_⟩
              simp only [menuRectAt, Rect.mk.injEq]
              exact ⟨rfl, by omega, rfl, trivial⟩
          · cases heq
        · rw [if_neg hc] at heq
          cases heq
          exact hinv
      split at hdraw
      · unfold draw_modal at hdraw
        split at hdraw
        · cases hdraw
          exact hmb r hr
        · cases hdraw
      · cases hdraw
        exact hmb r hr

/-- A sprite at cell `(2, 3)`. -/
def edgeSprite : Sprite := { pos_x := 2, pos_y := 3, layer := Layer.MOVABLES, texture_id := 200 }

/-- A one-option menu state whose recorded rectangle has the drawn shape,
and its state after one draw. -/
def menuInvState : MainState :=
  { baseState with current_menu := ["Attack"], menu_buttons := [menuRectAt 0] }

/-- `menuInvState` after one draw: the option-0 rectangle appended again. -/
def menuInvStateDrawn : MainState :=
  { menuInvState with menu_buttons := [menuRectAt 0, menuRectAt 0] }

/-- Witness for C10: the click `(64, 100)` (x a multiple of 32) and the
click `(77, 96)` (y a multiple of 32) hit the cell-`(2,3)` sprite's test
nowhere; the click `(10, 212)` on the left edge of the option-0 rectangle
hits neither recorded rectangle; drawing `menuInvState` keeps every
recorded rectangle of the drawn shape. -/
theorem boundary_clicks_hit_nothing_witness :
    (spriteHit edgeSprite 64 100 = false) ∧
    (spriteHit edgeSprite 77 96 = false) ∧
    (∀ r ∈ [menuRectAt 0, menuRectAt 1], rectHit r 10 212 = false) ∧
    (∀ r ∈ menuInvStateDrawn.menu_buttons, ∃ i : Nat, r = menuRectAt i) :=
  ⟨(boundary_clicks_hit_nothing edgeSprite 64 100 [] (menuRectAt 0)).1 (by decide),
   (boundary_clicks_hit_nothing edgeSprite 77 96 [] (menuRectAt 0)).2.1 (by decide),
   (boundary_clicks_hit_nothing edgeSprite 10 212 [menuRectAt 0, menuRectAt 1]
      (menuRectAt 0)).2.2.1
      (by
        intro r hr
        simp only [List.mem_cons, List.not_mem_nil, or_false] at hr
        rcases hr with rfl | rfl
        · exact ⟨0, rfl⟩
        · exact ⟨1, rfl⟩)
      (by simp)
      (Or.inl ⟨Or.inl rfl, by decide, by decide⟩),
   (boundary_clicks_hit_nothing edgeSprite 0 0 [] (menuRectAt 0)).2.2.2 menuInvState
      menuInvStateDrawn
      (by
        intro r hr
        simp only [menuInvState, List.mem_singleton] at hr
        exact ⟨0, hr⟩)
      (by decide)⟩

end Dongeon
